import Mathlib

/-
Shallow embedding of the advanced-react-hooks exercise repository.

Embedded code (authoritative sources):
  * countReducer        — src/src/exercise/01.js, lines 6-15
  * pokemonCacheReducer — src/src/exercise/03.extra-2.js, lines 20-42
                          (identical copy in src/unnamed/part_002, lines 21-43)
  * asyncReducer        — src/unnamed/part_003, lines 19-37
  * handleRemove        — src/unnamed/part_002, lines 129-156
                          (near-identical copy at 03.extra-2.js lines 317-343,
                          differing only in calling reset() instead of
                          setIdle(); both dispatch the idle action)
  * the data-loading effect of PokemonSection — src/unnamed/part_002,
    lines 158-183, combined with run/setData of useAsync from
    src/unnamed/part_003, lines 51-77
  * useCount            — src/unnamed/part_001, lines 6-27
  * usePokemonCache     — src/src/exercise/03.extra-2.js, lines 53-63

Modelling conventions:
  * A JavaScript object with string keys is an insertion-ordered association
    list without duplicate keys (JS objects cannot hold duplicate keys).
  * Object identity (the address a spread literal allocates) is an explicit
    numeric id `oid`; each reducer call receives the id of the object its
    spread literal allocates.
  * A thrown Error is `Except.error` carrying the message text (the quote
    characters of the original messages are elided).
  * `null` / `undefined` values are `Option.none`.
-/

set_option autoImplicit false

namespace AdvancedReactHooks

/-- A JavaScript value, restricted to the shapes the counter exercise uses. -/
inductive JSVal where
  | num (n : Int)
  | str (s : String)
deriving DecidableEq

/-- A JavaScript object: an insertion-ordered list of key/value pairs. -/
abbrev JSRecord (α : Type) := List (String × α)

/-- Setting a key on a JavaScript object: an existing key keeps its position
and receives the new value, a fresh key is appended.  This is the effect of a
computed member written after a spread, as in the ADD_POKEMON case of the
cache reducer. -/
def recordSet {α : Type} : JSRecord α → String → α → JSRecord α
  | [], k, v => [(k, v)]
  | (k0, v0) :: rest, k, v =>
    if k0 = k then (k0, v) :: rest else (k0, v0) :: recordSet rest k v

/-- JavaScript spread merge of two objects: start from the first and set
every entry of the second in order. -/
def objMerge {α : Type} (a b : JSRecord α) : JSRecord α :=
  b.foldl (fun acc p => recordSet acc p.1 p.2) a

/-- Property lookup, `none` meaning the key is absent (undefined). -/
def lookupRecord {α : Type} : JSRecord α → String → Option α
  | [], _ => none
  | (k0, v0) :: rest, k => if k0 = k then some v0 else lookupRecord rest k

/-- Deleting a key from a JavaScript object: every entry under that key is
dropped, all others keep their order.  On a duplicate-free record this is
exactly the delete operator applied to the key. -/
def recordDelete {α : Type} : JSRecord α → String → JSRecord α
  | [], _ => []
  | (k0, v0) :: rest, k =>
    if k0 = k then recordDelete rest k else (k0, v0) :: recordDelete rest k

/-- The runtime shape of the action argument of countReducer, split exactly
as the typeof tests of the source: a function (called with the current state,
returning a partial state), an object (a null action, whose typeof is also
object and whose spread adds nothing, is `obj` with no fields), or any other
value, of which only the typeof string matters to the code. -/
inductive CountAction where
  | fn (f : JSRecord JSVal → JSRecord JSVal)
  | obj (fields : JSRecord JSVal)
  | other (typeName : String)

/-- countReducer from src/src/exercise/01.js lines 6-15: a function action is
called with the state and its result is shallow-merged over the state; an
object action is shallow-merged over the state; anything else throws an
error naming the typeof of the action. -/
def countReducer (state : JSRecord JSVal) (action : CountAction) :
    Except String (JSRecord JSVal) :=
  match action with
  | .fn f => .ok (objMerge state (f state))
  | .obj fields => .ok (objMerge state fields)
  | .other typeName =>
    .error ("Unsupported type for parameter action: " ++ typeName ++
      ". Supported types are object and function")

/-- A JavaScript object together with its identity (heap address). -/
structure JSObj (Data : Type) where
  oid : Nat
  entries : JSRecord Data
deriving DecidableEq

/-- The action shapes reaching pokemonCacheReducer: the two handled tags,
and `unknown` for an object carrying any other type tag (the switch default
branch). -/
inductive CacheAction (Data : Type) where
  | addPokemon (pokemonName : String) (pokemonData : Data)
  | removePokemon (pokemonName : String)
  | unknown (type : String)
deriving DecidableEq

/-- pokemonCacheReducer from src/src/exercise/03.extra-2.js lines 20-42.
ADD_POKEMON builds a spread copy of the cache with the name set to the data;
REMOVE_POKEMON builds a spread copy and deletes the name from the copy
(on a duplicate-free record, deletion of the key is filtering it out); any
other tag throws.  `freshOid` is the identity of the object the spread
literal of the taken branch allocates; the input object is never written. -/
def pokemonCacheReducer {Data : Type} (cache : JSObj Data)
    (action : CacheAction Data) (freshOid : Nat) : Except String (JSObj Data) :=
  match action with
  | .addPokemon name data => .ok ⟨freshOid, recordSet cache.entries name data⟩
  | .removePokemon name => .ok ⟨freshOid, recordDelete cache.entries name⟩
  | .unknown t => .error ("Unhandled action type: " ++ t)

/-- The state kept by useAsync: a status string plus nullable data and
error fields. -/
structure AsyncState (Data Err : Type) where
  status : String
  data : Option Data
  error : Option Err
deriving DecidableEq

/-- An action dispatched to asyncReducer: a type tag plus optional data and
error payloads (absent fields are none). -/
structure AsyncAction (Data Err : Type) where
  type : String
  data : Option Data
  error : Option Err
deriving DecidableEq

/-- asyncReducer from src/unnamed/part_003 lines 19-37: every handled case
returns a fresh literal state that ignores the previous state entirely; an
unhandled tag throws. -/
def asyncReducer {Data Err : Type} (state : AsyncState Data Err)
    (action : AsyncAction Data Err) : Except String (AsyncState Data Err) :=
  match action.type with
  | "pending" => .ok ⟨"pending", none, none⟩
  | "resolved" => .ok ⟨"resolved", action.data, none⟩
  | "rejected" => .ok ⟨"rejected", none, action.error⟩
  | "idle" => .ok ⟨"idle", none, none⟩
  | t => .error ("Unhandled action type: " ++ t)

/-- Dispatching a list of actions through asyncReducer in order, propagating
a thrown error. -/
def applyAsyncActions {Data Err : Type} (state : AsyncState Data Err) :
    List (AsyncAction Data Err) → Except String (AsyncState Data Err)
  | [] => .ok state
  | a :: rest =>
    match asyncReducer state a with
    | .ok s2 => applyAsyncActions s2 rest
    | .error e => .error e

/-- Dispatching a list of actions through pokemonCacheReducer in order; each
dispatch allocates a fresh object, so successive ids are used. -/
def applyCacheActions {Data : Type} (cache : JSObj Data) (freshOid : Nat) :
    List (CacheAction Data) → Except String (JSObj Data)
  | [] => .ok cache
  | a :: rest =>
    match pokemonCacheReducer cache a freshOid with
    | .ok c2 => applyCacheActions c2 (freshOid + 1) rest
    | .error e => .error e

/-- What one run of the PokemonSection data-loading effect does: whether
fetchPokemon was called, and the actions dispatched to the async reducer and
to the cache reducer, in order. -/
structure EffectOutcome (Data Err : Type) where
  fetchInvoked : Bool
  asyncActions : List (AsyncAction Data Err)
  cacheActions : List (CacheAction Data)
deriving DecidableEq

/-- The data-loading effect of PokemonSection (src/unnamed/part_002 lines
158-183) combined with run and setData of useAsync (src/unnamed/part_003).
An empty selection returns early with no dispatch.  If the cache holds the
selected name, setData dispatches a resolved action carrying the cached data
(cached pokemon records are objects, hence truthy, so the truthiness test of
the source coincides with key presence) and no fetch happens.  Otherwise run
dispatches pending and invokes fetchPokemon, whose settled outcome is
`fetchResult`: on fulfillment the then-callback dispatches ADD_POKEMON and
the value propagates to a resolved dispatch; on rejection a rejected action
carrying the error is dispatched and no cache action ever fires. -/
def pokemonSectionEffect {Data Err : Type} (pokemonName : String)
    (cache : JSRecord Data) (fetchResult : Except Err Data) :
    EffectOutcome Data Err :=
  if pokemonName = "" then ⟨false, [], []⟩
  else
    match lookupRecord cache pokemonName with
    | some d => ⟨false, [⟨"resolved", some d, none⟩], []⟩
    | none =>
      match fetchResult with
      | .ok d =>
        ⟨true, [⟨"pending", none, none⟩, ⟨"resolved", some d, none⟩],
          [.addPokemon pokemonName d]⟩
      | .error e =>
        ⟨true, [⟨"pending", none, none⟩, ⟨"rejected", none, some e⟩], []⟩

/-- What one call of handleRemove does: the cache action it dispatches, the
argument of onSelect when it is called, and the async dispatch performed
(setData d is a resolved action carrying d, setIdle is an idle action). -/
structure RemoveOutcome (Data Err : Type) where
  cacheAction : CacheAction Data
  selectCall : Option String
  asyncAction : Option (AsyncAction Data Err)
deriving DecidableEq

/-- handleRemove from src/unnamed/part_002 lines 129-156.  It dispatches
REMOVE_POKEMON, then (all reads below are of the pre-removal cache closed
over by the handler): if the removed name is not the displayed one it
returns; else if keys other than the removed one remain, it destructures the
FIRST key of the pre-removal key list (not of the filtered list it just
computed), selects it and setData its cached value; otherwise it selects
the empty name and setIdle. -/
def handleRemove {Data Err : Type} (pokemonName : String)
    (cache : JSRecord Data) (toRemove : String) : RemoveOutcome Data Err :=
  let cacheKeys := cache.map Prod.fst
  let filteredCacheKeys := cacheKeys.filter (fun k => k ≠ toRemove)
  if pokemonName ≠ toRemove then
    ⟨.removePokemon toRemove, none, none⟩
  else if 0 < filteredCacheKeys.length then
    match cacheKeys.head? with
    | some key =>
      ⟨.removePokemon toRemove, some key,
        some ⟨"resolved", lookupRecord cache key, none⟩⟩
    | none => ⟨.removePokemon toRemove, some "", some ⟨"idle", none, none⟩⟩
  else ⟨.removePokemon toRemove, some "", some ⟨"idle", none, none⟩⟩

/-- Reading a React context: the nearest provider value when inside a
provider scope, the context default otherwise. -/
def useContextRead {α : Type} (defaultValue : α) (providerValue : Option α) :
    α :=
  match providerValue with
  | some v => v
  | none => defaultValue

/-- The default of CountContext in src/unnamed/part_001 line 6: the array
holding count 0 and a no-op setter.  A context value is modelled as none
when nullish and as the count it carries otherwise (the setter is opaque);
an array is never nullish, so this default is non-nullish. -/
def countContextDefault : Option Int := some 0

/-- useCount from src/unnamed/part_001 lines 19-27: reads CountContext and
throws if the value is falsy.  The value is either the provider pair or the
(truthy, array-valued) context default, so the logical-not test of the
source is the nullish test modelled here. -/
def useCount (providerValue : Option (Option Int)) :
    Except String (Option Int) :=
  let context := useContextRead countContextDefault providerValue
  if context.isNone then
    .error "useCount must be used within the CountProvider"
  else .ok context

/-- The default of PokemonCacheContext (src/src/exercise/03.extra-2.js line
18): createContext is called with no argument, so the default is
undefined. -/
def pokemonCacheContextDefault {α : Type} : Option α := none

/-- usePokemonCache from src/src/exercise/03.extra-2.js lines 53-63: reads
PokemonCacheContext and throws if the value is nullish. -/
def usePokemonCache {α : Type} (providerValue : Option (Option α)) :
    Except String (Option α) :=
  let context := useContextRead pokemonCacheContextDefault providerValue
  if context.isNone then
    .error "usePokemonCacheContext must be used within a PokemonCacheProvider"
  else .ok context

/-- C1 counterexample: at count 0 and step 1, the counter reducer applied to
the INCREMENT-tagged action does not return a record with count 1; being an
object, the action is shallow-merged over the state, leaving count at 0 and
adding the type and step fields. -/
theorem countReducer_increment_cex :
    countReducer [("count", .num 0)]
        (.obj [("type", .str "INCREMENT"), ("step", .num 1)]) =
      .ok [("count", .num 0), ("type", .str "INCREMENT"), ("step", .num 1)] ∧
    countReducer [("count", .num 0)]
        (.obj [("type", .str "INCREMENT"), ("step", .num 1)]) ≠
      .ok [("count", .num 1)] :=
  ⟨rfl, by intro h; exact absurd (Except.ok.inj h) (by decide)⟩

/-- C1 (amended): for every count c and step s, the counter reducer applied
to state with count c and object action tagged INCREMENT with step s returns
the shallow merge of the action over the state: count stays c and the type
and step fields are appended; the step is never added to the count. -/
theorem countReducer_increment_merges (c s : Int) :
    countReducer [("count", .num c)]
        (.obj [("type", .str "INCREMENT"), ("step", .num s)]) =
      .ok [("count", .num c), ("type", .str "INCREMENT"), ("step", .num s)] :=
  rfl

/-- C2 counterexample: an object action carrying the unrecognized tag FOO
does not make the counter reducer fail; the object is silently shallow-merged
over the state. -/
theorem countReducer_unknown_tag_cex :
    countReducer [("count", .num 0)] (.obj [("type", .str "FOO")]) =
      .ok [("count", .num 0), ("type", .str "FOO")] :=
  rfl

/-- C2 (amended): the counter reducer never inspects action tags.  Every
object action, whatever its type field holds, is shallow-merged over the
state and returned without error; the reducer fails only when the action is
neither a function nor an object, and that error names the runtime typeof of
the action, not a tag. -/
theorem countReducer_ignores_tags (state fields : JSRecord JSVal)
    (typeName : String) :
    countReducer state (.obj fields) = .ok (objMerge state fields) ∧
    countReducer state (.other typeName) =
      .error ("Unsupported type for parameter action: " ++ typeName ++
        ". Supported types are object and function") :=
  ⟨rfl, rfl⟩

theorem lookupRecord_recordSet_self {α : Type} (l : JSRecord α) (k : String)
    (v : α) : lookupRecord (recordSet l k v) k = some v := by
  induction l with
  | nil => simp [recordSet, lookupRecord]
  | cons p rest ih =>
    obtain ⟨k0, v0⟩ := p
    by_cases h : k0 = k
    · simp [recordSet, h, lookupRecord]
    · simp [recordSet, h, lookupRecord, ih]

theorem lookupRecord_recordSet_other {α : Type} (l : JSRecord α)
    (k k2 : String) (v : α) (h : k2 ≠ k) :
    lookupRecord (recordSet l k v) k2 = lookupRecord l k2 := by
  induction l with
  | nil => simp [recordSet, lookupRecord, Ne.symm h]
  | cons p rest ih =>
    obtain ⟨k0, v0⟩ := p
    by_cases h0 : k0 = k
    · subst h0
      simp [recordSet, lookupRecord, Ne.symm h]
    · simp [recordSet, h0, lookupRecord, ih]

theorem lookupRecord_recordDelete_self {α : Type} (l : JSRecord α)
    (n : String) : lookupRecord (recordDelete l n) n = none := by
  induction l with
  | nil => simp [recordDelete, lookupRecord]
  | cons p rest ih =>
    obtain ⟨k0, v0⟩ := p
    by_cases h : k0 = n
    · simp [recordDelete, h, ih]
    · simp [recordDelete, h, lookupRecord, ih]

theorem lookupRecord_recordDelete_other {α : Type} (l : JSRecord α)
    (n k : String) (h : k ≠ n) :
    lookupRecord (recordDelete l n) k = lookupRecord l k := by
  induction l with
  | nil => simp [recordDelete]
  | cons p rest ih =>
    obtain ⟨k0, v0⟩ := p
    by_cases h0 : k0 = n
    · subst h0
      simp [recordDelete, lookupRecord, Ne.symm h, ih]
    · simp [recordDelete, h0, lookupRecord, ih]

theorem recordDelete_of_lookup_none {α : Type} (l : JSRecord α) (n : String)
    (h : lookupRecord l n = none) : recordDelete l n = l := by
  induction l with
  | nil => rfl
  | cons p rest ih =>
    obtain ⟨k0, v0⟩ := p
    by_cases h0 : k0 = n
    · simp [lookupRecord, h0] at h
    · simp [lookupRecord, h0] at h
      simp [recordDelete, h0, ih h]

theorem recordDelete_idem {α : Type} (l : JSRecord α) (n : String) :
    recordDelete (recordDelete l n) n = recordDelete l n :=
  recordDelete_of_lookup_none _ _ (lookupRecord_recordDelete_self l n)

/-- C5: for every cache M, adding data D under name N and then removing N by
two successive dispatches through the cache reducer yields a cache holding
no key N and agreeing with M on every other key K. -/
theorem cache_add_then_remove (Data : Type) (M : JSRecord Data)
    (N K : String) (D : Data) (o f1 f2 : Nat) (c1 c2 : JSObj Data)
    (h1 : pokemonCacheReducer ⟨o, M⟩ (.addPokemon N D) f1 = .ok c1)
    (h2 : pokemonCacheReducer c1 (.removePokemon N) f2 = .ok c2)
    (hK : K ≠ N) :
    lookupRecord c2.entries N = none ∧
    lookupRecord c2.entries K = lookupRecord M K := by
  have e1 : c1 = ⟨f1, recordSet M N D⟩ := (Except.ok.inj h1).symm
  subst e1
  have e2 : c2 = ⟨f2, recordDelete (recordSet M N D) N⟩ :=
    (Except.ok.inj h2).symm
  subst e2
  refine ⟨lookupRecord_recordDelete_self _ _, ?_⟩
  rw [lookupRecord_recordDelete_other _ _ _ hK,
    lookupRecord_recordSet_other _ _ _ _ hK]

/-- C5 witness: concrete round trip over the cache holding x, adding
pikachu and removing it again. -/
theorem cache_add_then_remove_witness :
    lookupRecord (JSObj.entries (⟨2, [("x", 7)]⟩ : JSObj Nat)) "pikachu" =
      none ∧
    lookupRecord (JSObj.entries (⟨2, [("x", 7)]⟩ : JSObj Nat)) "x" =
      lookupRecord [("x", 7)] "x" :=
  cache_add_then_remove Nat [("x", 7)] "pikachu" "x" 25 0 1 2
    ⟨1, [("x", 7), ("pikachu", 25)]⟩ ⟨2, [("x", 7)]⟩ rfl rfl (by decide)

/-- C6: on every accepted action (ADD_POKEMON or REMOVE_POKEMON) the cache
reducer succeeds and returns the freshly allocated object, whose identity
differs from the input object, so the result is never the input mapping;
the embedding is pure, so the input object is never written. -/
theorem cacheReducer_fresh_value (Data : Type) (c : JSObj Data)
    (a : CacheAction Data) (f : Nat) (hf : f ≠ c.oid)
    (ha : ∀ t, a ≠ CacheAction.unknown t) :
    ∃ r : JSObj Data,
      pokemonCacheReducer c a f = .ok r ∧ r.oid = f ∧ r ≠ c := by
  cases a with
  | addPokemon n d =>
    exact ⟨⟨f, recordSet c.entries n d⟩, rfl, rfl,
      fun h => hf (congrArg JSObj.oid h)⟩
  | removePokemon n =>
    exact ⟨⟨f, recordDelete c.entries n⟩, rfl, rfl,
      fun h => hf (congrArg JSObj.oid h)⟩
  | unknown t => exact absurd rfl (ha t)

/-- C6 witness: adding pikachu to the empty cache object at address 0, with
the spread literal allocating address 1, returns a distinct fresh object. -/
theorem cacheReducer_fresh_value_witness :
    ∃ r : JSObj Nat,
      pokemonCacheReducer (⟨0, []⟩ : JSObj Nat) (.addPokemon "pikachu" 25) 1 =
        .ok r ∧ r.oid = 1 ∧ r ≠ ⟨0, []⟩ :=
  cacheReducer_fresh_value Nat ⟨0, []⟩ (.addPokemon "pikachu" 25) 1
    (by decide) (fun t h => CacheAction.noConfusion h)

/-- C7: removing a key absent from the cache leaves the entries unchanged
(while still returning a fresh copy at the allocated address), and removing
the same key twice yields the same entries as removing it once. -/
theorem cache_remove_noop_idem (Data : Type) (M : JSRecord Data) (N : String)
    (o f f1 f2 : Nat) :
    (lookupRecord M N = none →
      pokemonCacheReducer ⟨o, M⟩ (.removePokemon N) f = .ok ⟨f, M⟩) ∧
    (∀ c1 c2 : JSObj Data,
      pokemonCacheReducer ⟨o, M⟩ (.removePokemon N) f1 = .ok c1 →
      pokemonCacheReducer c1 (.removePokemon N) f2 = .ok c2 →
      c2.entries = c1.entries) := by
  constructor
  · intro h
    simp [pokemonCacheReducer, recordDelete_of_lookup_none M N h]
  · intro c1 c2 h1 h2
    have e1 : c1 = ⟨f1, recordDelete M N⟩ := (Except.ok.inj h1).symm
    subst e1
    have e2 : c2 = ⟨f2, recordDelete (recordDelete M N) N⟩ :=
      (Except.ok.inj h2).symm
    subst e2
    exact recordDelete_idem M N

/-- C7 witness: removing the absent key a from the cache holding only b is a
no-op on contents, and a second removal leaves the same entries. -/
theorem cache_remove_noop_idem_witness :
    pokemonCacheReducer (⟨0, [("b", 2)]⟩ : JSObj Nat) (.removePokemon "a") 1 =
      .ok ⟨1, [("b", 2)]⟩ ∧
    (JSObj.entries (⟨5, [("b", 2)]⟩ : JSObj Nat)) =
      (JSObj.entries (⟨3, [("b", 2)]⟩ : JSObj Nat)) :=
  ⟨(cache_remove_noop_idem Nat [("b", 2)] "a" 0 1 3 5).1 (by decide),
    (cache_remove_noop_idem Nat [("b", 2)] "a" 0 1 3 5).2
      ⟨3, [("b", 2)]⟩ ⟨5, [("b", 2)]⟩ rfl rfl⟩

/-- C3 failing input: with cache holding a (data 1) then b (data 2) and a
currently displayed, removing a makes handleRemove re-select a itself — the
key it just removed, because it destructures the first key of the
pre-removal cache instead of the filtered key list it computed — and setData
the removed entry's cached data, leaving the view pointing at the removed
entry instead of a remaining key or the idle state. -/
theorem handleRemove_reselects_removed_key :
    @handleRemove Nat String "a" [("a", 1), ("b", 2)] "a" =
      ⟨CacheAction.removePokemon "a", some "a",
        some ⟨"resolved", some 1, none⟩⟩ :=
  rfl

/-- C4 failing behavior: useCount invoked with no enclosing CountProvider
reads the context default, the truthy array of count 0 and a no-op setter,
so its guard never fires and it silently returns that default instead of
throwing; usePokemonCache, whose context default is undefined, does throw
the provider-missing error. -/
theorem useCount_missing_provider_silent :
    useCount none = .ok (some 0) ∧
    @usePokemonCache Nat none =
      .error "usePokemonCacheContext must be used within a PokemonCacheProvider" :=
  ⟨rfl, rfl⟩

/-- C8: selecting a non-empty name absent from the cache runs the fetch; when
the fetch rejects with error E, the effect dispatches no cache action at all
(ADD_POKEMON fires only on fulfillment), and folding its async dispatches
from any prior state ends in the rejected state holding exactly E with no
data. -/
theorem fetch_rejection_no_cache_entry (Data Err : Type) (name : String)
    (cache : JSRecord Data) (E : Err) (s0 : AsyncState Data Err)
    (c0 : JSObj Data) (f : Nat) (hname : name ≠ "")
    (hmiss : lookupRecord cache name = none) :
    pokemonSectionEffect name cache (Except.error E) =
      ⟨true, [⟨"pending", none, none⟩, ⟨"rejected", none, some E⟩], []⟩ ∧
    applyAsyncActions s0
        [⟨"pending", none, none⟩, ⟨"rejected", none, some E⟩] =
      .ok ⟨"rejected", none, some E⟩ ∧
    applyCacheActions c0 f ([] : List (CacheAction Data)) = .ok c0 := by
  refine ⟨?_, rfl, rfl⟩
  simp [pokemonSectionEffect, hname, hmiss]

/-- C8 witness: the fetch for missingmon rejecting with a not-found error on
an empty cache yields the rejected state holding that error and dispatches
nothing to the cache. -/
theorem fetch_rejection_no_cache_entry_witness :
    pokemonSectionEffect "missingmon" ([] : JSRecord Nat)
        (Except.error "pokemon not found") =
      ⟨true, [⟨"pending", none, none⟩,
        ⟨"rejected", none, some "pokemon not found"⟩], []⟩ ∧
    applyAsyncActions (⟨"idle", none, none⟩ : AsyncState Nat String)
        [⟨"pending", none, none⟩,
          ⟨"rejected", none, some "pokemon not found"⟩] =
      .ok ⟨"rejected", none, some "pokemon not found"⟩ ∧
    applyCacheActions (⟨0, []⟩ : JSObj Nat) 1 [] = .ok ⟨0, []⟩ :=
  fetch_rejection_no_cache_entry Nat String "missingmon" [] "pokemon not found"
    ⟨"idle", none, none⟩ ⟨0, []⟩ 1 (by decide) rfl

/-- C9: selecting a non-empty name whose data is already cached makes the
effect dispatch a single resolved action carrying the cached data, invoking
no fetch and no cache action; folding that dispatch from any prior state
ends in the resolved state holding the cached data. -/
theorem cache_hit_no_fetch (Data Err : Type) (name : String)
    (cache : JSRecord Data) (d : Data) (fetchResult : Except Err Data)
    (s0 : AsyncState Data Err) (hname : name ≠ "")
    (hhit : lookupRecord cache name = some d) :
    pokemonSectionEffect name cache fetchResult =
      ⟨false, [⟨"resolved", some d, none⟩], []⟩ ∧
    applyAsyncActions s0 [⟨"resolved", some d, none⟩] =
      .ok ⟨"resolved", some d, none⟩ := by
  refine ⟨?_, rfl⟩
  simp [pokemonSectionEffect, hname, hhit]

/-- C9 witness: selecting pikachu while its data 25 is cached dispatches the
resolved action with the cached data and never invokes the fetch, whatever
the fetch would have returned. -/
theorem cache_hit_no_fetch_witness :
    pokemonSectionEffect "pikachu" [("pikachu", 25)]
        (Except.error "unreachable") =
      ⟨false, [⟨"resolved", some 25, none⟩], []⟩ ∧
    applyAsyncActions (⟨"idle", none, none⟩ : AsyncState Nat String)
        [⟨"resolved", some 25, none⟩] =
      .ok ⟨"resolved", some 25, none⟩ :=
  cache_hit_no_fetch Nat String "pikachu" [("pikachu", 25)] 25
    (Except.error "unreachable") ⟨"idle", none, none⟩ (by decide) rfl

/-- C10: the async reducer ignores the previous state — its result on any
action is identical from any two states — and every successfully produced
state satisfies the invariant: a resolved state carries no error, a rejected
state carries no data, and a pending or idle state carries neither. -/
theorem asyncReducer_state_free_invariant (Data Err : Type)
    (s1 s2 : AsyncState Data Err) (a : AsyncAction Data Err) :
    asyncReducer s1 a = asyncReducer s2 a ∧
    ∀ r : AsyncState Data Err, asyncReducer s1 a = .ok r →
      (r.status = "resolved" → r.error = none) ∧
      (r.status = "rejected" → r.data = none) ∧
      (r.status = "pending" ∨ r.status = "idle" →
        r.data = none ∧ r.error = none) := by
  refine ⟨rfl, ?_⟩
  intro r h
  unfold asyncReducer at h
  split at h <;> first
    | (cases h; refine ⟨?_, ?_, ?_⟩ <;> intro hs <;> simp_all)
    | cases h

/-- C10 witness: dispatching the pending action from the idle state and from
a resolved state gives the same result, whose state carries neither data nor
error. -/
theorem asyncReducer_state_free_invariant_witness :
    (⟨"pending", none, none⟩ : AsyncState Nat String).data = none ∧
    (⟨"pending", none, none⟩ : AsyncState Nat String).error = none :=
  ((asyncReducer_state_free_invariant Nat String ⟨"idle", none, none⟩
      ⟨"resolved", some 3, none⟩ ⟨"pending", none, none⟩).2
    ⟨"pending", none, none⟩ rfl).2.2 (Or.inl rfl)

end AdvancedReactHooks
